import Mathlib

/-!
# Verification of the Customer-Support-assistant RAG backend

A shallow embedding of the four backend modules (`data_loader.py`,
`embeddings.py`, `chroma_index.py`, `rag_query.py`) of the
Customer-Support-assistant repository, together with theorems settling the
behavioural claims about them.

Modelling conventions:
* Python/JSON values are modelled by the inductive `JValue`; Python's
  `str()` coercion, truthiness test and `str.strip()` become `pyStr`,
  `pyTruthy` and `pyStrip`.
* Exceptions are modelled with `Except String`; a caught-and-converted
  exception shows up as a `match` on the `Except` value.
* External collaborators (the ticket JSON file, the sentence-transformer
  `encode` call, the ChromaDB client/collection and the Gemini generation
  call) are oracles supplied through environment records; their possible
  exceptions are `.error` results of the oracles.
* Floating point numbers are modelled by `ℚ` (the code performs only
  `max`, subtraction and formatting on them).
-/

/-- Python's default `str.strip()` whitespace characters. -/
def isPySpace (c : Char) : Bool :=
  c = ' ' || c = '\t' || c = '\n' || c = '\r' || c = '\x0b' || c = '\x0c'

/-- Strip on a character list: drop whitespace from both ends. -/
def stripList (l : List Char) : List Char :=
  ((l.dropWhile isPySpace).reverse.dropWhile isPySpace).reverse

/-- Python `s.strip()`. -/
def pyStrip (s : String) : String :=
  String.mk (stripList s.data)

mutual

/-- JSON-ish Python values as they occur in the ticket file: `None`,
booleans, integers, strings, lists and dictionaries (the latter two via
the mutual types `JList` and `JFields`, isomorphic to ordinary lists, so
that recursion over values stays structural). -/
inductive JValue where
  | null : JValue
  | bool : Bool → JValue
  | num : Int → JValue
  | str : String → JValue
  | arr : JList → JValue
  | obj : JFields → JValue

/-- A Python list of values. -/
inductive JList where
  | nil : JList
  | cons : JValue → JList → JList

/-- A Python dictionary: key/value items in insertion order. -/
inductive JFields where
  | nil : JFields
  | cons : String → JValue → JFields → JFields

end

/-- The ordinary list held by a `JList`. -/
def JList.toList : JList → List JValue
  | .nil => []
  | .cons x xs => x :: xs.toList

/-- The ordinary association list held by a `JFields`. -/
def JFields.toList : JFields → List (String × JValue)
  | .nil => []
  | .cons k v fs => (k, v) :: fs.toList

mutual

/-- Python `repr` of a value (used by `str()` on containers). -/
def pyRepr : JValue → String
  | .null => "None"
  | .bool true => "True"
  | .bool false => "False"
  | .num n => toString n
  | .str s => "\x27" ++ s ++ "\x27"
  | .arr xs => "[" ++ pyReprArr xs ++ "]"
  | .obj fs => "\x7b" ++ pyReprObj fs ++ "\x7d"

/-- Comma-separated `repr`s of list elements. -/
def pyReprArr : JList → String
  | .nil => ""
  | .cons x .nil => pyRepr x
  | .cons x (.cons y xs) => pyRepr x ++ ", " ++ pyReprArr (.cons y xs)

/-- Comma-separated `repr`s of dictionary items. -/
def pyReprObj : JFields → String
  | .nil => ""
  | .cons k v .nil => "\x27" ++ k ++ "\x27" ++ ": " ++ pyRepr v
  | .cons k v (.cons k2 v2 fs) =>
    "\x27" ++ k ++ "\x27" ++ ": " ++ pyRepr v ++ ", " ++ pyReprObj (.cons k2 v2 fs)

end

/-- Python `str()` coercion. -/
def pyStr : JValue → String
  | .str s => s
  | v => pyRepr v

/-- Python truthiness (`bool(v)`): `None`, `False`, `0`, `""`, `[]` and
an empty dict are falsy, everything else truthy. -/
def pyTruthy : JValue → Bool
  | .null => false
  | .bool b => b
  | .num n => n != 0
  | .str s => s != ""
  | .arr xs => !xs.toList.isEmpty
  | .obj fs => !fs.toList.isEmpty

/-- Python `d.get(key)` on a dictionary value (`none` when the key is
absent or the value is not a dictionary). -/
def jGet (t : JValue) (k : String) : Option JValue :=
  match t with
  | .obj fs => fs.toList.lookup k
  | _ => none

/-- Whether the value is a Python dictionary. -/
def JValue.isObj : JValue → Bool
  | .obj _ => true
  | _ => false

/-! ## `data_loader.py` -/

/-- The typed errors `load_all_tickets` raises: `FileNotFoundError`
(spec taxonomy `NotFound`) and `ValueError` (spec taxonomy `Invalid`),
each carrying its message. -/
inductive LoadErr where
  | notFound : String → LoadErr
  | invalid : String → LoadErr
deriving Repr

/-- The message of a load error (Python `str(e)`). -/
def LoadErr.msg : LoadErr → String
  | .notFound m => m
  | .invalid m => m

/-- The state of the configured ticket JSON file, as observed by
`load_all_tickets`: absent, present but zero bytes, present but not
parseable as JSON, or parsed into a value. -/
inductive TicketSource where
  | missing : TicketSource
  | emptyFile : TicketSource
  | badJson : TicketSource
  | parsed : JValue → TicketSource

/-- `data_loader._validate_ticket`, field check for one required field:
`field not in ticket`, then `not ticket[field] or not
str(ticket[field]).strip()`. -/
def requiredFieldOk (fs : JFields) (f : String) : Bool :=
  match fs.toList.lookup f with
  | none => false
  | some v => pyTruthy v && pyStrip (pyStr v) != ""

/-- `data_loader._validate_ticket`: the ticket must be a dictionary whose
`id`, `subject` and `body` are present, truthy, and non-empty once
coerced to a string and stripped; finally `str(ticket["id"]).strip()`
must be non-empty (the index argument only feeds log messages and is
omitted). -/
def _validate_ticket (t : JValue) : Bool :=
  match t with
  | .obj fs =>
      (["id", "subject", "body"].all (requiredFieldOk fs)) &&
      pyStrip (pyStr ((fs.toList.lookup "id").getD .null)) != ""
  | _ => false

/-- `data_loader.load_all_tickets`: missing file raises
`FileNotFoundError`; an empty file, malformed JSON or a non-list raises
`ValueError`; an empty list is returned as is; otherwise the tickets that
pass `_validate_ticket` are returned, and if none do, `ValueError` is
raised. -/
def load_all_tickets : TicketSource → Except LoadErr (List JValue)
  | .missing => .error (.notFound "Tickets file not found")
  | .emptyFile => .error (.invalid "Tickets file is empty")
  | .badJson => .error (.invalid "Invalid JSON in tickets file")
  | .parsed v =>
    match v with
    | .arr l =>
      let tickets := l.toList
      if tickets.isEmpty then .ok []
      else
        let valid_tickets := tickets.filter _validate_ticket
        if valid_tickets.isEmpty then
          .error (.invalid "No valid tickets found in the data file")
        else .ok valid_tickets
    | _ => .error (.invalid "Tickets data must be a list of ticket objects")

/-- Python list slice `l[:stop]` with an `Int` stop (negative stops count
from the end, clamped at zero). -/
def pySliceTo {α : Type} (l : List α) (stop : Int) : List α :=
  l.take (if stop < 0 then (stop + l.length).toNat else stop.toNat)

/-- `data_loader.get_ticket_sample`: `load_all_tickets()[:min(n, len)]`,
with every loading exception converted to the empty list. -/
def get_ticket_sample (src : TicketSource) (n : Int) : List JValue :=
  match load_all_tickets src with
  | .error _ => []
  | .ok all_tickets => pySliceTo all_tickets (min n (all_tickets.length : Int))

/-- Modelled from the spec: the validation rule as the spec states it
("must be a mapping; must contain non-empty `id`, `subject`, `body`
(after string coercion and trim)"), for comparison with the source's
`_validate_ticket`. -/
def validTicket_spec (t : JValue) : Bool :=
  match t with
  | .obj fs =>
      ["id", "subject", "body"].all fun f =>
        match fs.toList.lookup f with
        | some v => pyStrip (pyStr v) != ""
        | none => false
  | _ => false

/-! ## `embeddings.py` -/

/-- `embeddings.get_embeddings`, text built for one ticket:
`f"{ticket.get('subject', '')}\n\n{ticket.get('body', '')}".strip()`. -/
def ticketText (t : JValue) : String :=
  pyStrip (pyStr ((jGet t "subject").getD (.str "")) ++ "\n\n" ++
    pyStr ((jGet t "body").getD (.str "")))

/-- `embeddings.get_embeddings`: empty input gives `[]`; tickets whose
combined text strips to empty are skipped; if no text survives, `[]`;
otherwise the surviving texts are encoded in order by the cached
sentence-transformer model (the oracle `encode`, covering both model
loading and inference; its exception is wrapped in
`ValueError("Failed to generate embeddings: ...")`). -/
def get_embeddings (encode : List String → Except String (List (List ℚ)))
    (support_tickets : List JValue) : Except String (List (List ℚ)) :=
  if support_tickets.isEmpty then .ok []
  else
    let texts := support_tickets.filterMap fun t =>
      let combined_text := ticketText t
      if combined_text = "" then none else some combined_text
    if texts.isEmpty then .ok []
    else
      match encode texts with
      | .error e => .error ("Failed to generate embeddings: " ++ e)
      | .ok embedding_list => .ok embedding_list

/-! ## `chroma_index.py` -/

/-- The flat metadata mapping stored with each indexed document. -/
def Metadata : Type := List (String × JValue)

/-- One stored collection entry: document text, metadata, embedding. -/
def Entry : Type := String × Metadata × List ℚ

/-- The contents of the ChromaDB collection, keyed by document id. -/
structure CollectionState where
  entries : List (String × Entry)

/-- `collection.count()`. -/
def CollectionState.count (c : CollectionState) : Nat :=
  c.entries.length

/-- Upsert one keyed entry: overwrite the entry with the same id if it
exists, otherwise append. -/
def upsertOne (entries : List (String × Entry)) (kv : String × Entry) :
    List (String × Entry) :=
  if entries.any (fun p => p.1 == kv.1) then
    entries.map (fun p => if p.1 == kv.1 then kv else p)
  else entries ++ [kv]

/-- Upsert a batch of keyed entries in order. -/
def upsertEntries (entries : List (String × Entry))
    (batch : List (String × Entry)) : List (String × Entry) :=
  batch.foldl upsertOne entries

/-- `chroma_index.index_all_tickets`, id of one indexed document:
`str(ticket.get("id", f"ticket_{len(ids)}"))`. -/
def docId (t : JValue) (idsLen : Nat) : String :=
  pyStr ((jGet t "id").getD (.str ("ticket_" ++ toString idsLen)))

/-- `chroma_index.index_all_tickets`, document text of one ticket:
`f"{ticket.get('subject', 'No subject')}\n\n{ticket.get('body', 'No description')}"`. -/
def docText (t : JValue) : String :=
  pyStr ((jGet t "subject").getD (.str "No subject")) ++ "\n\n" ++
    pyStr ((jGet t "body").getD (.str "No description"))

/-- `chroma_index.index_all_tickets`, metadata of one ticket. -/
def docMetadata (t : JValue) (idsLen : Nat) : Metadata :=
  [("ticketId", JValue.str (docId t idsLen)),
   ("ticketSubject", (jGet t "subject").getD (.str "No subject")),
   ("ticketResolution", (jGet t "resolution").getD (.str "No resolution provided")),
   ("ticketStatus", (jGet t "status").getD (.str "unknown")),
   ("ticketPriority", (jGet t "priority").getD (.str "normal")),
   ("created_at", (jGet t "created_at").getD (.str ""))]

/-- `chroma_index.index_all_tickets`, the per-ticket preparation loop:
each ticket is turned into an id, a document and a metadata record and
appended to the three lists; the only exception the loop body can raise
is `.get` on a non-dictionary ticket, caught by the per-ticket
`except`, which skips that ticket. -/
def buildDocsAux (ids documents : List String) (metadatas : List Metadata) :
    List JValue → List String × List String × List Metadata
  | [] => (ids, documents, metadatas)
  | t :: rest =>
    match t with
    | .obj fs =>
      buildDocsAux (ids ++ [docId (.obj fs) ids.length])
        (documents ++ [docText (.obj fs)])
        (metadatas ++ [docMetadata (.obj fs) ids.length]) rest
    | _ => buildDocsAux ids documents metadatas rest

/-- The `(ids, documents, metadatas)` triple prepared by the loop. -/
def buildDocs (tickets : List JValue) :
    List String × List String × List Metadata :=
  buildDocsAux [] [] [] tickets

/-- Environment of the index manager: the ticket source, the embedding
model oracle, whether collection setup (directory creation, client and
collection construction) raises, and whether `collection.upsert` raises
on a given batch. -/
structure ChromaEnv where
  src : TicketSource
  encode : List String → Except String (List (List ℚ))
  initError : Option String
  upsertErr : List String → List String → List Metadata → List (List ℚ) →
    Option String

/-- `chroma_index.index_all_tickets`: loads tickets, no-ops when there
are none, generates embeddings, prepares the batch (skipping per-ticket
failures), no-ops when no document survives, then upserts the whole
batch; any exception in the body is caught and re-raised as
`ValueError("Failed to index tickets: ...")`. -/
def index_all_tickets (env : ChromaEnv) (col : CollectionState) :
    Except String CollectionState :=
  match load_all_tickets env.src with
  | .error le => .error ("Failed to index tickets: " ++ le.msg)
  | .ok tickets =>
    if tickets.isEmpty then .ok col
    else
      match get_embeddings env.encode tickets with
      | .error e => .error ("Failed to index tickets: " ++ e)
      | .ok embeddings =>
        match buildDocs tickets with
        | (ids, documents, metadatas) =>
          if ids.isEmpty then .ok col
          else
            match env.upsertErr ids documents metadatas embeddings with
            | some e => .error ("Failed to index tickets: " ++ e)
            | none =>
              .ok ⟨upsertEntries col.entries
                (ids.zip (documents.zip (metadatas.zip embeddings)))⟩

/-- `chroma_index.create_or_get_chroma_collection`: sets up the client
and retrieves the named collection (`persisted`), creating it empty when
absent; when its count is zero it runs a full `index_all_tickets` pass
synchronously before returning; any exception is caught and re-raised as
`ValueError("Failed to initialize ChromaDB collection: ...")`. The
opaque client half of the returned pair is not modelled. -/
def create_or_get_chroma_collection (env : ChromaEnv)
    (persisted : Option CollectionState) : Except String CollectionState :=
  match env.initError with
  | some e => .error ("Failed to initialize ChromaDB collection: " ++ e)
  | none =>
    let collection := persisted.getD ⟨[]⟩
    if collection.count = 0 then
      match index_all_tickets env collection with
      | .error e => .error ("Failed to initialize ChromaDB collection: " ++ e)
      | .ok col2 => .ok col2
    else .ok collection

/-! ## `rag_query.py` -/

/-- Modelled from the spec: `config.py` is not among the sources; the
spec fixes the maximum top-k at 10. -/
def MAX_TOP_K : Int := 10

/-- Modelled from the spec: `config.py` is not among the sources; the
spec fixes the default top-k at 5. -/
def DEFAULT_TOP_K : Int := 5

/-- The result of `collection.query(query_texts=[q], n_results=k,
include=["documents", "metadatas", "distances"])`, restricted to the
single query text: the inner per-query lists. -/
structure QueryResult where
  ids : List String
  documents : List String
  metadatas : List Metadata
  distances : List ℚ

/-- One formatted retrieval hit `(ticket_id, subject, snippet,
resolution, score)`; metadata-derived fields keep their raw values. -/
structure RHit where
  ticketId : JValue
  subject : JValue
  snippet : String
  resolution : JValue
  score : ℚ

/-- Environment of the query engine: the composite retrieval oracle
(`create_or_get_chroma_collection` plus `collection.query`, either of
whose exceptions is the `.error` case), whether `GOOGLE_API_KEY` is
configured, and the Gemini generation oracle (covering model
construction and `generate_content`; `.ok` is the response text,
which the code then checks for emptiness). -/
structure RagEnv where
  colQuery : String → Int → Except String QueryResult
  hasKey : Bool
  gen : String → Except String String

/-- `rag_query.query_top_k_tickets`, body of the per-hit loop: reads
the hit's metadata, document and distance (an out-of-range access
raises and the hit is skipped by the per-hit `except`), applies the
metadata defaults and computes `score = max(0.0, 1.0 - distance)`. -/
def formatHit (results : QueryResult) (idx : Nat) : Option RHit :=
  match results.metadatas[idx]?, results.documents[idx]?, results.distances[idx]? with
  | some metadata, some snippet, some distance =>
    some ⟨(metadata.lookup "ticketId").getD (.str "unknown"),
          (metadata.lookup "ticketSubject").getD (.str "No subject"),
          snippet,
          (metadata.lookup "ticketResolution").getD (.str "No resolution available"),
          max 0 (1 - distance)⟩
  | _, _, _ => none

/-- `rag_query.query_top_k_tickets`: caps `k` at `MAX_TOP_K`, returns
`[]` for an empty or whitespace query, queries the collection with the
stripped query text, returns `[]` on empty ids or on any exception, and
otherwise formats each hit, skipping hits that fail to process. -/
def query_top_k_tickets (env : RagEnv) (query : String) (k : Int) :
    List RHit :=
  let k := if k > MAX_TOP_K then MAX_TOP_K else k
  if query = "" || pyStrip query = "" then []
  else
    match env.colQuery (pyStrip query) k with
    | .error _ => []
    | .ok results =>
      if results.ids.isEmpty then []
      else (List.range results.ids.length).filterMap (formatHit results)

/-- Round to the nearest integer, ties to even (Python float/`format`
rounding, on the exact rational). -/
def roundHalfEven (q : ℚ) : Int :=
  let f : Int := ⌊q⌋
  let r : ℚ := q - f
  if r < 1 / 2 then f
  else if r > 1 / 2 then f + 1
  else if f % 2 = 0 then f else f + 1

/-- Python `f"{score:.1%}"`: the score as a percentage with one decimal
digit. -/
def fmtPercent (score : ℚ) : String :=
  let m : Int := roundHalfEven (score * 1000)
  (if m < 0 then "-" else "") ++
    toString (m.natAbs / 10) ++ "." ++ toString (m.natAbs % 10) ++ "%"

/-- `rag_query.build_rag_prompt`, the fixed preamble of the
with-context prompt. -/
def ragPreamble : String :=
  "You are an expert customer support assistant with access to a comprehensive knowledge base of historical support tickets. Your role is to provide accurate, helpful, and actionable answers based on how similar issues have been resolved in the past.\n\nIMPORTANT GUIDELINES:\n- Provide a direct, helpful answer to the user\x27s question\n- Base your response primarily on the ticket resolutions provided below\n- If the context doesn\x27t contain enough information, supplement with general support knowledge\n- Be concise but thorough in your explanations\n- Include actionable steps when applicable\n- Do NOT mention ticket IDs, scores, or refer to \"the context below\"\n- Write as if you\x27re directly answering the customer\n\n"

/-- `rag_query.build_rag_prompt`, text before the query in the
no-context prompt. -/
def noCasePre : String :=
  "You are a helpful customer support assistant. The user has asked: \""

/-- `rag_query.build_rag_prompt`, text after the query in the
no-context prompt. -/
def noCasePost : String :=
  "\"\n\nUnfortunately, I couldn\x27t find any relevant historical support tickets to answer this question. Please provide a helpful response based on general support knowledge, and suggest that the user contact support directly for more specific assistance.\n\nAnswer:"

/-- `rag_query.build_rag_prompt`, the block emitted for one retrieved
ticket inside the loop. -/
def caseBlock (t : RHit) : String :=
  "Case: " ++ pyStr t.subject ++ "\n" ++
  "Description: " ++ t.snippet.take 200 ++
    (if t.snippet.length > 200 then "..." else "") ++ "\n" ++
  "Resolution: " ++ pyStr t.resolution ++ "\n" ++
  "Relevance: " ++ fmtPercent t.score ++ "\n" ++
  String.mk (List.replicate 30 '-') ++ "\n"

/-- `rag_query.build_rag_prompt`: with no relevant tickets, the short
general-knowledge prompt embedding the query; otherwise the preamble,
the user question, the "Relevant Support Cases" header and divider,
one block per ticket accumulated in order, and the response header. -/
def build_rag_prompt (query : String) (relevant_tickets : List RHit) :
    String :=
  if relevant_tickets.isEmpty then noCasePre ++ query ++ noCasePost
  else
    let prompt := ragPreamble
    let prompt := prompt ++ "## User Question:\n" ++ query ++ "\n\n"
    let prompt := prompt ++ "## Relevant Support Cases:\n"
    let prompt := prompt ++ String.mk (List.replicate 50 '=') ++ "\n"
    let prompt := relevant_tickets.foldl (fun acc t => acc ++ caseBlock t) prompt
    prompt ++ "\n## Your Response:\n"

/-- `rag_query.resolve_query`, fallback when retrieval yields nothing. -/
def noTicketsMsg : String :=
  "I couldn\x27t find any relevant support tickets to answer your question. This might be a new type of issue. Please contact our support team directly for personalized assistance."

/-- `rag_query.resolve_query`, fallback when `GOOGLE_API_KEY` is not
configured. -/
def noKeyMsg : String :=
  "Error: AI service is not properly configured. Please contact support."

/-- `rag_query.resolve_query`, fallback when the model returns an empty
response. -/
def emptyResponseMsg : String :=
  "I apologize, but I\x27m having trouble generating a response right now. Please try rephrasing your question or contact support directly."

/-- `rag_query.resolve_query`, the fixed text prepended to the caught
exception's description. -/
def errorMsgPre : String :=
  "I encountered an error while processing your question. Please try again or contact our support team for assistance. Error: "

/-- The `try` body of `rag_query.resolve_query`: retrieve (never raises,
see `query_top_k_tickets`), short-circuit on no tickets, build the
prompt, short-circuit on a missing API key, call the generation oracle
(its exception propagates to the top-level handler), short-circuit on an
empty response, else return the stripped response text. -/
def resolve_query_body (env : RagEnv) (query : String) (k : Int) :
    Except String String :=
  let top_k_tickets := query_top_k_tickets env query k
  if top_k_tickets.isEmpty then .ok noTicketsMsg
  else
    let rag_prompt := build_rag_prompt query top_k_tickets
    if !env.hasKey then .ok noKeyMsg
    else
      match env.gen rag_prompt with
      | .error e => .error e
      | .ok text =>
        if text = "" then .ok emptyResponseMsg
        else .ok (pyStrip text)

/-- `rag_query.resolve_query`: the body wrapped in the top-level
`try/except` that converts any exception into the fixed-format error
string carrying the exception's description. -/
def resolve_query (env : RagEnv) (query : String) (k : Int) : String :=
  match resolve_query_body env query k with
  | .ok answer => answer
  | .error e => errorMsgPre ++ e

/-- Naive substring test on character lists. -/
def containsSubAux (needle : List Char) : List Char → Bool
  | [] => needle.isEmpty
  | c :: rest => needle.isPrefixOf (c :: rest) || containsSubAux needle rest

/-- Whether `needle` occurs as a substring of `hay`. -/
def containsSub (needle hay : String) : Bool :=
  containsSubAux needle.data hay.data

/-- Build a `JFields` from an ordinary association list (notation helper
for concrete inputs). -/
def JFields.ofList : List (String × JValue) → JFields
  | [] => .nil
  | (k, v) :: rest => .cons k v (JFields.ofList rest)

/-- Build a `JList` from an ordinary list (notation helper for concrete
inputs). -/
def JList.ofList : List JValue → JList
  | [] => .nil
  | x :: rest => .cons x (JList.ofList rest)

/-! ## Concrete fixtures used by witnesses and counterexamples -/

/-- A valid ticket. -/
def tA : JValue :=
  .obj (.ofList [("id", .str "1"), ("subject", .str "Password reset"),
    ("body", .str "User cannot log in")])

/-- A second valid ticket. -/
def tB : JValue :=
  .obj (.ofList [("id", .str "2"), ("subject", .str "Login issue"),
    ("body", .str "Account locked")])

/-- A ticket source holding the two valid tickets. -/
def srcTwo : TicketSource := .parsed (.arr (.ofList [tA, tB]))

/-- A ticket whose `id` is the integer `0`: non-empty after string
coercion (`"0"`), but falsy in Python. -/
def tZero : JValue :=
  .obj (.ofList [("id", .num 0), ("subject", .str "a"), ("body", .str "b")])

/-! ## Claim C2 -/

/-- Claim C2, counterexample: the empty JSON list parses as a list and
zero tickets survive validation, yet `load_all_tickets` returns the
empty list instead of failing with `Invalid`. -/
theorem load_all_tickets_empty_list_counterexample :
    (JList.nil.toList.filter _validate_ticket = []) ∧
    load_all_tickets (.parsed (.arr .nil)) = .ok [] :=
  ⟨rfl, rfl⟩

/-- Claim C2 (amended): for every ticket source whose contents parse as
a NON-EMPTY list, if zero tickets survive per-ticket validation,
`load_all_tickets` fails with `Invalid`; for the empty list it instead
returns the empty sequence. -/
theorem load_all_tickets_all_invalid (ts : JList)
    (hne : ts.toList ≠ [])
    (hinv : ts.toList.filter _validate_ticket = []) :
    load_all_tickets (.parsed (.arr ts)) =
      .error (.invalid "No valid tickets found in the data file") := by
  simp [load_all_tickets, List.isEmpty_iff, hne, hinv]

/-- Claim C2, witness for the amended theorem at the singleton list
containing `None`, which fails validation. -/
theorem load_all_tickets_all_invalid_witness :
    load_all_tickets (.parsed (.arr (.cons .null .nil))) =
      .error (.invalid "No valid tickets found in the data file") :=
  load_all_tickets_all_invalid (.cons .null .nil) (by simp [JList.toList]) rfl

/-! ## Claim C9 -/

/-- Claim C9, counterexample: at `n = -1` over a two-ticket source the
code returns one ticket (Python slice `[: -1]`), while the claimed
"first `min(n, count)` tickets" is the empty sequence, since
`min (-1) 2 = -1` clamps to zero tickets. -/
theorem get_ticket_sample_negative_counterexample :
    get_ticket_sample srcTwo (-1) = [tA] ∧
    (min (-1 : Int) 2).toNat = 0 ∧ ([tA] : List JValue) ≠ [] :=
  ⟨rfl, rfl, by simp⟩

/-- Claim C9 (amended): when loading fails, `get_ticket_sample` returns
the empty sequence; when loading succeeds, for every `n ≥ 0` it returns
the first `min(n, count)` valid tickets, while for `n < 0` Python slice
semantics return the first `max(0, count + n)` tickets instead. -/
theorem get_ticket_sample_spec (src : TicketSource) (n : Int) :
    (∀ e, load_all_tickets src = .error e → get_ticket_sample src n = []) ∧
    (∀ ts, load_all_tickets src = .ok ts →
      (0 ≤ n →
        get_ticket_sample src n = ts.take (min n (ts.length : Int)).toNat) ∧
      (n < 0 →
        get_ticket_sample src n = ts.take ((ts.length : Int) + n).toNat)) := by
  constructor
  · intro e he
    simp [get_ticket_sample, he]
  · intro ts hts
    have hlen : (0 : Int) ≤ (ts.length : Int) := Int.ofNat_nonneg _
    constructor
    · intro hn
      have hmin : ¬ (min n (ts.length : Int) < 0) := by omega
      simp [get_ticket_sample, hts, pySliceTo, hmin]
    · intro hn
      have hmin : min n (ts.length : Int) = n := by omega
      have hneg : n < 0 := hn
      simp only [get_ticket_sample, hts, pySliceTo, hmin, if_pos hneg]
      congr 1
      omega

/-- Claim C9, witness for the amended theorem at `n = 3` over the
two-ticket source. -/
theorem get_ticket_sample_spec_witness :
    get_ticket_sample srcTwo 3 = [tA, tB].take (min 3 ((2 : Nat) : Int)).toNat :=
  ((get_ticket_sample_spec srcTwo 3).2 [tA, tB] rfl).1 (by decide)

/-! ## Claim C3 -/

/-- An index-manager environment over the two-ticket source whose
embedding oracle and upsert never fail. -/
def envUpOk : ChromaEnv :=
  ⟨srcTwo, fun texts => .ok (texts.map fun _ => [0]), none,
   fun _ _ _ _ => none⟩

/-- An index-manager environment whose ticket file is missing and whose
upsert never fails. -/
def envLoadFail : ChromaEnv :=
  ⟨.missing, fun texts => .ok (texts.map fun _ => [0]), none,
   fun _ _ _ _ => none⟩

/-- Claim C3, counterexample: with an upsert that never raises (it is
constantly `none`), `index_all_tickets` still fails — here because the
ticket load raises — so the error is not produced only by the final
batch upsert. -/
theorem index_all_tickets_load_failure_counterexample :
    index_all_tickets envLoadFail ⟨[]⟩ =
      .error ("Failed to index tickets: Tickets file not found") ∧
    envLoadFail.upsertErr [] [] [] [] = none :=
  ⟨rfl, rfl⟩

/-- Claim C3 (amended): `index_all_tickets` fails with `IndexError`
whenever the ticket load, the embedding generation, or the final batch
upsert raises — the single `except` wraps all three stages, not only the
upsert; per-ticket document-construction failures are skipped, never
fatal, and when none of the three stages raises the call succeeds. -/
theorem index_all_tickets_failure_modes (env : ChromaEnv)
    (col : CollectionState) :
    (∀ le, load_all_tickets env.src = .error le →
      index_all_tickets env col =
        .error ("Failed to index tickets: " ++ le.msg)) ∧
    (∀ ts e, load_all_tickets env.src = .ok ts → ts ≠ [] →
      get_embeddings env.encode ts = .error e →
      index_all_tickets env col = .error ("Failed to index tickets: " ++ e)) ∧
    (∀ ts embs e, load_all_tickets env.src = .ok ts → ts ≠ [] →
      get_embeddings env.encode ts = .ok embs →
      (buildDocs ts).1 ≠ [] →
      env.upsertErr (buildDocs ts).1 (buildDocs ts).2.1 (buildDocs ts).2.2
        embs = some e →
      index_all_tickets env col = .error ("Failed to index tickets: " ++ e)) ∧
    (∀ ts embs, load_all_tickets env.src = .ok ts →
      get_embeddings env.encode ts = .ok embs →
      (∀ ids docs metas, env.upsertErr ids docs metas embs = none) →
      ∃ c2, index_all_tickets env col = .ok c2) ∧
    (∀ ids docs metas bad rest, bad.isObj = false →
      buildDocsAux ids docs metas (bad :: rest) =
        buildDocsAux ids docs metas rest) := by
  refine ⟨?_, ?_, ?_, ?_, ?_⟩
  · intro le hle
    simp [index_all_tickets, hle]
  · intro ts e hts hne hge
    simp [index_all_tickets, hts, List.isEmpty_iff, hne, hge]
  · intro ts embs e hts hne hge hids hup
    have hemp : ts.isEmpty = false := by simp [List.isEmpty_iff, hne]
    rcases hb : buildDocs ts with ⟨ids, docs, metas⟩
    rw [hb] at hids hup
    simp only at hids hup
    have hidse : ids.isEmpty = false := by
      rw [Bool.eq_false_iff]
      intro hcontra
      exact hids (List.isEmpty_iff.1 hcontra)
    simp [index_all_tickets, hts, hemp, hge, hb, hidse, hup]
  · intro ts embs hts hge hup
    simp only [index_all_tickets, hts]
    by_cases hne : ts.isEmpty
    · exact ⟨col, by simp [hne]⟩
    · rcases hb : buildDocs ts with ⟨ids, docs, metas⟩
      by_cases hids : ids.isEmpty
      · exact ⟨col, by simp [hne, hge, hb, hids]⟩
      · exact ⟨⟨upsertEntries col.entries (ids.zip (docs.zip (metas.zip embs)))⟩,
          by simp [hne, hge, hb, hids, hup]⟩
  · intro ids docs metas bad rest hbad
    cases bad <;> simp_all [buildDocsAux, JValue.isObj]

/-- An index-manager environment over the two-ticket source whose batch
upsert raises `"disk full"`. -/
def envUpFail : ChromaEnv :=
  ⟨srcTwo, fun texts => .ok (texts.map fun _ => [0]), none,
   fun _ _ _ _ => some "disk full"⟩

/-- Claim C3, witness: over the two-ticket source, indexing succeeds
with a never-failing upsert and fails with the wrapped error when the
batch upsert raises. -/
theorem index_all_tickets_failure_modes_witness :
    (∃ c2, index_all_tickets envUpOk ⟨[]⟩ = .ok c2) ∧
    index_all_tickets envUpFail ⟨[]⟩ =
      .error ("Failed to index tickets: " ++ "disk full") :=
  ⟨(index_all_tickets_failure_modes envUpOk ⟨[]⟩).2.2.2.1 [tA, tB] [[0], [0]]
    rfl rfl (fun _ _ _ => rfl),
   (index_all_tickets_failure_modes envUpFail ⟨[]⟩).2.2.1 [tA, tB] [[0], [0]]
    "disk full" rfl (by simp) rfl (by decide) rfl⟩

/-! ## Claim C8 -/

/-- A collection already holding one entry. -/
def colOne : CollectionState :=
  ⟨[("1", ("d", ([] : Metadata), ([] : List ℚ)))]⟩

/-- Claim C8: `create_or_get_chroma_collection` triggers a full indexing
pass before returning exactly when the retrieved-or-created collection
has count zero (a freshly created collection is empty); once the
collection is non-empty, every call returns the existing handle
unchanged without indexing, so repeated calls are idempotent with
respect to the collection contents. -/
theorem create_or_get_lazy_population (env : ChromaEnv)
    (col : CollectionState) (hinit : env.initError = none) :
    (col.count = 0 → ∀ c2, index_all_tickets env col = .ok c2 →
      create_or_get_chroma_collection env (some col) = .ok c2) ∧
    (col.count = 0 → ∀ e, index_all_tickets env col = .error e →
      create_or_get_chroma_collection env (some col) =
        .error ("Failed to initialize ChromaDB collection: " ++ e)) ∧
    (col.count ≠ 0 →
      create_or_get_chroma_collection env (some col) = .ok col) ∧
    (create_or_get_chroma_collection env none =
      create_or_get_chroma_collection env (some ⟨[]⟩)) := by
  refine ⟨?_, ?_, ?_, ?_⟩
  · intro hc c2 hidx
    simp [create_or_get_chroma_collection, hinit, hc, hidx]
  · intro hc e hidx
    simp [create_or_get_chroma_collection, hinit, hc, hidx]
  · intro hc
    simp [create_or_get_chroma_collection, hinit, hc]
  · rfl

/-- Claim C8, witness: a non-empty collection is returned unchanged
(no indexing), and an empty collection triggers the indexing pass. -/
theorem create_or_get_lazy_population_witness :
    create_or_get_chroma_collection envUpOk (some colOne) = .ok colOne ∧
    ∃ c2, create_or_get_chroma_collection envUpOk (some ⟨[]⟩) = .ok c2 :=
  ⟨(create_or_get_lazy_population envUpOk colOne rfl).2.2.1 (by decide),
   ⟨_, (create_or_get_lazy_population envUpOk ⟨[]⟩ rfl).1 rfl _ rfl⟩⟩

/-! ## Claims C5, C6, C1 -/

/-- Metadata of a single retrieval hit fixture. -/
def mdOne : Metadata := [("ticketId", JValue.str "a")]

/-- A single-hit query result fixture at distance `1/2`. -/
def resOne : QueryResult := ⟨["a"], ["doc"], [mdOne], [(1 : ℚ) / 2]⟩

/-- The formatted hit produced from `resOne`. -/
def hitOne : RHit :=
  ⟨.str "a", .str "No subject", "doc", .str "No resolution available",
   max 0 (1 - (1 : ℚ) / 2)⟩

/-- A query-engine environment whose retrieval returns `resOne` and
whose generation succeeds. -/
def envOne : RagEnv := ⟨fun _ _ => .ok resOne, true, fun _ => .ok "hello"⟩

/-- A query-engine environment whose retrieval returns `resOne` and
whose generation raises `"boom"`. -/
def envGenFail : RagEnv :=
  ⟨fun _ _ => .ok resOne, true, fun _ => .error "boom"⟩

/-- A query-engine environment whose retrieval raises `"db down"`. -/
def envRetrFail : RagEnv :=
  ⟨fun _ _ => .error "db down", true, fun _ => .ok "hello"⟩

/-- Claim C5: for a non-empty query and `k` above the configured
maximum, `query_top_k_tickets` silently clamps `k` to `MAX_TOP_K` and
returns at most that many result tuples, provided the index honours
`n_results` (at most `MAX_TOP_K` ids come back for the clamped call). -/
theorem query_top_k_clamps (env : RagEnv) (q : String) (k : Int)
    (hq : pyStrip q ≠ "") (hk : k > MAX_TOP_K)
    (hbound : ∀ r, env.colQuery (pyStrip q) MAX_TOP_K = .ok r →
      r.ids.length ≤ 10) :
    (query_top_k_tickets env q k).length ≤ 10 ∧
    query_top_k_tickets env q k = query_top_k_tickets env q MAX_TOP_K := by
  have heq : query_top_k_tickets env q k = query_top_k_tickets env q MAX_TOP_K := by
    simp only [query_top_k_tickets, if_pos hk, if_neg (lt_irrefl MAX_TOP_K)]
  refine ⟨?_, heq⟩
  rw [heq]
  simp only [query_top_k_tickets, if_neg (lt_irrefl MAX_TOP_K)]
  split
  · simp
  · split
    next e he => simp
    next r hr =>
      split
      next h => simp
      next h =>
        calc ((List.range r.ids.length).filterMap (formatHit r)).length
            ≤ (List.range r.ids.length).length := List.length_filterMap_le _ _
          _ = r.ids.length := List.length_range _
          _ ≤ 10 := hbound r hr

/-- Claim C5, witness at `k = 12` over the single-hit environment. -/
theorem query_top_k_clamps_witness :
    (query_top_k_tickets envOne "help" 12).length ≤ 10 ∧
    query_top_k_tickets envOne "help" 12 =
      query_top_k_tickets envOne "help" MAX_TOP_K :=
  query_top_k_clamps envOne "help" 12 (by decide) (by decide)
    (fun r h => by injection h with h2; rw [← h2]; decide)

/-- Claim C6: every hit returned by `query_top_k_tickets` carries score
`max(0, 1 - distance)` for the distance the index reported at that
hit's position, and in particular every returned score is
non-negative. -/
theorem query_scores_from_distance (env : RagEnv) (q : String) (k : Int)
    (hit : RHit) (hmem : hit ∈ query_top_k_tickets env q k) :
    0 ≤ hit.score ∧
    ∃ (res : QueryResult) (idx : Nat) (d : ℚ),
      env.colQuery (pyStrip q) (if k > MAX_TOP_K then MAX_TOP_K else k) =
        .ok res ∧
      res.distances[idx]? = some d ∧ hit.score = max 0 (1 - d) := by
  simp only [query_top_k_tickets] at hmem
  split at hmem
  · simp at hmem
  · split at hmem
    next e he => simp at hmem
    next res hres =>
      split at hmem
      · simp at hmem
      · rw [List.mem_filterMap] at hmem
        obtain ⟨idx, _, hfi⟩ := hmem
        simp only [formatHit] at hfi
        split at hfi
        next md snippet d hmd hdoc hdist =>
          obtain heq := Option.some.inj hfi
          refine ⟨?_, res, idx, d, hres, hdist, ?_⟩
          · rw [← heq]
            exact le_max_left 0 _
          · rw [← heq]
        next => exact absurd hfi (by simp)

/-- Claim C6, witness at the single-hit environment: the hit formatted
from distance `1/2` satisfies the score law. -/
theorem query_scores_from_distance_witness :
    0 ≤ hitOne.score ∧
    ∃ (res : QueryResult) (idx : Nat) (d : ℚ),
      envOne.colQuery (pyStrip "help")
          (if (5 : Int) > MAX_TOP_K then MAX_TOP_K else 5) = .ok res ∧
      res.distances[idx]? = some d ∧ hitOne.score = max 0 (1 - d) :=
  query_scores_from_distance envOne "help" 5 hitOne
    (by rw [show query_top_k_tickets envOne "help" 5 = [hitOne] from rfl]
        exact List.mem_singleton_self _)

/-- Claim C1, counterexample: an exception raised in the retrieval
stage is converted inside `query_top_k_tickets` to an empty result, so
`resolve_query` returns the fixed "no relevant tickets" fallback, not
the fixed-format error string containing the exception's description
(`"db down"` appears nowhere in the answer). -/
theorem resolve_query_retrieval_error_counterexample :
    resolve_query envRetrFail "help" 5 = noTicketsMsg ∧
    containsSub "db down" noTicketsMsg = false ∧
    noTicketsMsg ≠ errorMsgPre ++ "db down" :=
  ⟨rfl, by decide, by decide⟩

/-- Claim C1 (amended): `resolve_query` never raises and always returns
a string: an exception reaching its top-level handler (only the
generation stage can raise one) is converted into the fixed-format
error string carrying the exception's description, a normal body result
is returned as is, and an exception during retrieval is caught inside
the retrieval stage and yields the fixed no-relevant-tickets fallback
string instead. -/
theorem resolve_query_never_raises (env : RagEnv) (q : String) (k : Int) :
    (∀ e, resolve_query_body env q k = .error e →
      resolve_query env q k = errorMsgPre ++ e) ∧
    (∀ s, resolve_query_body env q k = .ok s → resolve_query env q k = s) ∧
    (∀ e, env.colQuery (pyStrip q) (if k > MAX_TOP_K then MAX_TOP_K else k) =
        .error e →
      resolve_query env q k = noTicketsMsg) := by
  refine ⟨?_, ?_, ?_⟩
  · intro e he
    simp [resolve_query, he]
  · intro s hs
    simp [resolve_query, hs]
  · intro e he
    have hqtk : query_top_k_tickets env q k = [] := by
      simp only [query_top_k_tickets]
      split
      · rfl
      · rw [he]
    simp [resolve_query, resolve_query_body, hqtk]

/-- Claim C1, witness: a generation-stage exception `"boom"` is caught
and surfaces in the fixed-format error string. -/
theorem resolve_query_never_raises_witness :
    resolve_query envGenFail "help" 5 = errorMsgPre ++ "boom" :=
  (resolve_query_never_raises envGenFail "help" 5).1 "boom" rfl

/-! ## Claim C4 -/

/-- The per-field check passes exactly when the field is present with a
truthy value that is non-empty after string coercion and strip. -/
lemma requiredFieldOk_iff (fs : JFields) (f : String) :
    requiredFieldOk fs f = true ↔
      ∃ v, fs.toList.lookup f = some v ∧ pyTruthy v = true ∧
        pyStrip (pyStr v) ≠ "" := by
  unfold requiredFieldOk
  cases h : fs.toList.lookup f with
  | none => simp [h]
  | some v => simp [h, Bool.and_eq_true, bne_iff_ne]

/-- A ticket passing `_validate_ticket` is a dictionary whose `id`,
`subject` and `body` are present, truthy, and non-empty after string
coercion and strip. -/
lemma validate_ticket_char (t : JValue) (h : _validate_ticket t = true) :
    ∃ fs, t = JValue.obj fs ∧
      ∀ f ∈ (["id", "subject", "body"] : List String), ∃ v,
        fs.toList.lookup f = some v ∧ pyTruthy v = true ∧
        pyStrip (pyStr v) ≠ "" := by
  cases t with
  | obj fs =>
    refine ⟨fs, rfl, ?_⟩
    simp only [_validate_ticket, Bool.and_eq_true, List.all_eq_true] at h
    intro f hf
    exact (requiredFieldOk_iff fs f).1 (h.1 f hf)
  | null => exact absurd h (by simp [_validate_ticket])
  | bool b => exact absurd h (by simp [_validate_ticket])
  | num n => exact absurd h (by simp [_validate_ticket])
  | str s => exact absurd h (by simp [_validate_ticket])
  | arr xs => exact absurd h (by simp [_validate_ticket])

/-- Claim C4, counterexample: the ticket `tZero` with integer id `0` is
valid under the spec's stated rule (string coercion gives the non-empty
`"0"`), yet the code's validation rejects it — Python truthiness
excludes falsy field values such as `0` — so loading a list holding
only `tZero` aborts with `Invalid` instead of returning `[tZero]`. -/
theorem load_validation_spec_counterexample :
    validTicket_spec tZero = true ∧
    _validate_ticket tZero = false ∧
    load_all_tickets (.parsed (.arr (.cons tZero .nil))) =
      .error (.invalid "No valid tickets found in the data file") :=
  ⟨rfl, rfl, rfl⟩

/-- Claim C4 (amended): a successful `load_all_tickets` returns exactly
the subsequence of source tickets passing the code's validation —
a dictionary whose `id`, `subject` and `body` are present, truthy in
Python's sense (which excludes values like `0`, `None` or `False`), and
non-empty after string coercion and trim — preserving source order;
invalid tickets are skipped without aborting the load (unless none
survives). -/
theorem load_all_tickets_filter_spec (l : JList) (out : List JValue)
    (h : load_all_tickets (.parsed (.arr l)) = .ok out) :
    out = l.toList.filter _validate_ticket ∧
    out.Sublist l.toList ∧
    ∀ t ∈ out, ∃ fs, t = JValue.obj fs ∧
      ∀ f ∈ (["id", "subject", "body"] : List String), ∃ v,
        fs.toList.lookup f = some v ∧ pyTruthy v = true ∧
        pyStrip (pyStr v) ≠ "" := by
  have hout : out = l.toList.filter _validate_ticket := by
    by_cases he : l.toList.isEmpty
    · rw [List.isEmpty_iff] at he
      rw [he]
      simp [load_all_tickets, he] at h
      simp [h]
    · by_cases hf : (l.toList.filter _validate_ticket).isEmpty
      · simp [load_all_tickets, he, hf] at h
      · simp [load_all_tickets, he, hf] at h
        exact h.symm
  refine ⟨hout, hout ▸ List.filter_sublist _, ?_⟩
  intro t ht
  rw [hout] at ht
  exact validate_ticket_char t (List.of_mem_filter ht)

/-- Claim C4, witness: loading `[tA, None, tB]` succeeds with the
invalid `None` entry skipped, and the result is a sublist of the
source. -/
theorem load_all_tickets_filter_spec_witness :
    List.Sublist [tA, tB] (JList.ofList [tA, JValue.null, tB]).toList :=
  (load_all_tickets_filter_spec (JList.ofList [tA, JValue.null, tB])
    [tA, tB] rfl).2.1

/-! ## Claim C10 -/

/-- Stripping yields the empty list exactly when every character is
whitespace. -/
lemma stripList_eq_nil_iff (l : List Char) :
    stripList l = [] ↔ ∀ c ∈ l, isPySpace c = true := by
  unfold stripList
  rw [List.reverse_eq_nil_iff, List.dropWhile_eq_nil_iff]
  constructor
  · intro h c hc
    rw [← List.takeWhile_append_dropWhile isPySpace l] at hc
    rcases List.mem_append.1 hc with hc2 | hc2
    · exact List.mem_takeWhile_imp hc2
    · exact h c (List.mem_reverse.2 hc2)
  · intro h c hc
    rw [List.mem_reverse] at hc
    exact h c ((List.dropWhile_sublist isPySpace).subset hc)

/-- `pyStrip` yields the empty string exactly when every character is
whitespace. -/
lemma pyStrip_eq_empty_iff (s : String) :
    pyStrip s = "" ↔ ∀ c ∈ s.data, isPySpace c = true := by
  unfold pyStrip
  rw [← stripList_eq_nil_iff]
  constructor
  · intro h
    simpa using congrArg String.data h
  · intro h
    rw [h]

/-- A string that does not strip to empty keeps that property when a
suffix is appended. -/
lemma pyStrip_append_ne_empty_left (a b : String) (ha : pyStrip a ≠ "") :
    pyStrip (a ++ b) ≠ "" := by
  intro h
  apply ha
  rw [pyStrip_eq_empty_iff] at h ⊢
  intro c hc
  exact h c (by rw [String.data_append]; exact List.mem_append_left _ hc)

/-- A ticket passing validation is a dictionary. -/
lemma valid_isObj (t : JValue) (h : _validate_ticket t = true) :
    t.isObj = true := by
  obtain ⟨fs, rfl, -⟩ := validate_ticket_char t h
  rfl

/-- The embedding text of a validated ticket is non-empty: its subject
already survives stripping. -/
lemma ticketText_ne_empty (t : JValue) (h : _validate_ticket t = true) :
    ticketText t ≠ "" := by
  obtain ⟨fs, rfl, hfields⟩ := validate_ticket_char t h
  obtain ⟨v, hv, -, hvs⟩ := hfields "subject" (by simp)
  unfold ticketText
  have hjget : jGet (JValue.obj fs) "subject" = some v := by simp [jGet, hv]
  rw [hjget]
  simp only [Option.getD_some]
  exact pyStrip_append_ne_empty_left _ _ (pyStrip_append_ne_empty_left _ _ hvs)

/-- Every ticket in a successful `load_all_tickets` result passes
validation. -/
lemma load_ok_all_valid (src : TicketSource) (ts : List JValue)
    (h : load_all_tickets src = .ok ts) :
    ∀ t ∈ ts, _validate_ticket t = true := by
  cases src with
  | missing => simp [load_all_tickets] at h
  | emptyFile => simp [load_all_tickets] at h
  | badJson => simp [load_all_tickets] at h
  | parsed v =>
    cases v with
    | arr l =>
      by_cases he : l.toList.isEmpty
      · simp [load_all_tickets, he] at h
        intro t ht
        rw [h] at ht
        exact absurd ht (by simp)
      · by_cases hf : (l.toList.filter _validate_ticket).isEmpty
        · simp [load_all_tickets, he, hf] at h
        · simp [load_all_tickets, he, hf] at h
          intro t ht
          rw [← h] at ht
          exact List.of_mem_filter ht
    | null => simp [load_all_tickets] at h
    | bool b => simp [load_all_tickets] at h
    | num n => simp [load_all_tickets] at h
    | str s => simp [load_all_tickets] at h
    | obj fs => simp [load_all_tickets] at h

/-- When every ticket is valid, the text-collection loop of
`get_embeddings` skips nothing. -/
lemma texts_filterMap_eq_map (ts : List JValue)
    (h : ∀ t ∈ ts, _validate_ticket t = true) :
    (ts.filterMap fun t =>
      let combined_text := ticketText t
      if combined_text = "" then none else some combined_text) =
    ts.map ticketText := by
  induction ts with
  | nil => rfl
  | cons t rest ih =>
    have hne : ticketText t ≠ "" := ticketText_ne_empty t (h t (by simp))
    simp only [List.filterMap_cons, List.map_cons, if_neg hne]
    rw [ih (fun x hx => h x (by simp [hx]))]

/-- On a list of dictionaries, the document-preparation loop appends one
id, one document and one metadata record per ticket. -/
lemma buildDocsAux_lengths (ts : List JValue) :
    ∀ (ids docs : List String) (metas : List Metadata),
    (∀ t ∈ ts, t.isObj = true) →
    (buildDocsAux ids docs metas ts).1.length = ids.length + ts.length ∧
    (buildDocsAux ids docs metas ts).2.1.length = docs.length + ts.length ∧
    (buildDocsAux ids docs metas ts).2.2.length = metas.length + ts.length := by
  induction ts with
  | nil =>
    intro ids docs metas _
    simp [buildDocsAux]
  | cons t rest ih =>
    intro ids docs metas h
    have ht : t.isObj = true := h t (by simp)
    cases t with
    | obj fs =>
      rw [show buildDocsAux ids docs metas (JValue.obj fs :: rest) =
          buildDocsAux (ids ++ [docId (.obj fs) ids.length])
            (docs ++ [docText (.obj fs)])
            (metas ++ [docMetadata (.obj fs) ids.length]) rest from rfl]
      obtain ⟨h1, h2, h3⟩ := ih (ids ++ [docId (.obj fs) ids.length])
        (docs ++ [docText (.obj fs)])
        (metas ++ [docMetadata (.obj fs) ids.length])
        (fun x hx => h x (by simp [hx]))
      rw [h1, h2, h3]
      simp only [List.length_append, List.length_cons, List.length_nil]
      omega
    | null => simp [JValue.isObj] at ht
    | bool b => simp [JValue.isObj] at ht
    | num n => simp [JValue.isObj] at ht
    | str s => simp [JValue.isObj] at ht
    | arr xs => simp [JValue.isObj] at ht

/-- On a list of dictionaries, the documents produced by the
preparation loop are exactly the per-ticket document texts in order. -/
lemma buildDocsAux_docs (ts : List JValue) :
    ∀ (ids docs : List String) (metas : List Metadata),
    (∀ t ∈ ts, t.isObj = true) →
    (buildDocsAux ids docs metas ts).2.1 = docs ++ ts.map docText := by
  induction ts with
  | nil =>
    intro ids docs metas _
    simp [buildDocsAux]
  | cons t rest ih =>
    intro ids docs metas h
    have ht : t.isObj = true := h t (by simp)
    cases t with
    | obj fs =>
      simp only [buildDocsAux, List.map_cons]
      rw [ih _ _ _ (fun x hx => h x (by simp [hx]))]
      simp [List.append_assoc]
    | null => simp [JValue.isObj] at ht
    | bool b => simp [JValue.isObj] at ht
    | num n => simp [JValue.isObj] at ht
    | str s => simp [JValue.isObj] at ht
    | arr xs => simp [JValue.isObj] at ht

/-- The embedding text of a validated ticket is the stripped document
text used at indexing time (same subject/body pair, defaults unused). -/
lemma ticketText_eq_strip_docText (t : JValue)
    (h : _validate_ticket t = true) :
    ticketText t = pyStrip (docText t) := by
  obtain ⟨fs, rfl, hfields⟩ := validate_ticket_char t h
  obtain ⟨vs, hvs, -, -⟩ := hfields "subject" (by simp)
  obtain ⟨vb, hvb, -, -⟩ := hfields "body" (by simp)
  unfold ticketText docText
  simp [jGet, hvs, hvb]

/-- When every ticket is valid, `get_embeddings` reduces to encoding
one text per ticket. -/
lemma get_embeddings_all_valid
    (encode : List String → Except String (List (List ℚ)))
    (ts : List JValue) (hne : ts ≠ [])
    (hvalid : ∀ t ∈ ts, _validate_ticket t = true) :
    get_embeddings encode ts =
      match encode (ts.map ticketText) with
      | .error e => .error ("Failed to generate embeddings: " ++ e)
      | .ok vs => .ok vs := by
  unfold get_embeddings
  rw [texts_filterMap_eq_map ts hvalid]
  have h1 : ts.isEmpty = false := by simp [List.isEmpty_iff, hne]
  have h2 : (ts.map ticketText).isEmpty = false := by
    simp [List.isEmpty_iff, hne]
  simp [h1, h2]

/-- Claim C10: when `index_all_tickets` reaches its batch upsert, the
four parallel lists are aligned: every loaded ticket is a validated
dictionary whose embedding text is non-empty, so `get_embeddings` skips
none and (assuming the model returns one vector per input text) yields
one embedding per ticket, while the preparation loop appends exactly
one id, document and metadata record per ticket; each document is the
ticket's subject/body text whose stripped form is the text the
embedding was computed from. -/
theorem index_batch_lists_aligned (env : ChromaEnv) (ts : List JValue)
    (embs : List (List ℚ))
    (hload : load_all_tickets env.src = .ok ts)
    (hlen : ∀ texts vs, env.encode texts = .ok vs → vs.length = texts.length)
    (hge : get_embeddings env.encode ts = .ok embs) :
    (buildDocs ts).1.length = ts.length ∧
    (buildDocs ts).2.1.length = ts.length ∧
    (buildDocs ts).2.2.length = ts.length ∧
    embs.length = ts.length ∧
    (buildDocs ts).2.1 = ts.map docText ∧
    ∀ t ∈ ts, ticketText t = pyStrip (docText t) := by
  have hvalid : ∀ t ∈ ts, _validate_ticket t = true :=
    load_ok_all_valid env.src ts hload
  have hobj : ∀ t ∈ ts, t.isObj = true :=
    fun t ht => valid_isObj t (hvalid t ht)
  obtain ⟨h1, h2, h3⟩ := buildDocsAux_lengths ts [] [] [] hobj
  have hdocs := buildDocsAux_docs ts [] [] [] hobj
  have hembs : embs.length = ts.length := by
    by_cases hne : ts = []
    · subst hne
      simp [get_embeddings] at hge
      simp [← hge]
    · rw [get_embeddings_all_valid env.encode ts hne hvalid] at hge
      cases henc : env.encode (ts.map ticketText) with
      | error e =>
        rw [henc] at hge
        simp at hge
      | ok vs =>
        rw [henc] at hge
        simp at hge
        rw [← hge, hlen _ vs henc, List.length_map]
  exact ⟨by simpa [buildDocs] using h1, by simpa [buildDocs] using h2,
    by simpa [buildDocs] using h3, hembs, by simpa [buildDocs] using hdocs,
    fun t ht => ticketText_eq_strip_docText t (hvalid t ht)⟩

/-- Claim C10, witness over the two-ticket source with a one-vector-
per-text model: the prepared documents are the per-ticket texts. -/
theorem index_batch_lists_aligned_witness :
    (buildDocs [tA, tB]).2.1 = [tA, tB].map docText :=
  (index_batch_lists_aligned envUpOk [tA, tB] [[0], [0]] rfl
    (fun texts vs hv => by injection hv with h2; rw [← h2]; simp)
    rfl).2.2.2.2.1

/-! ## Claim C7 -/

/-- Concatenation of the per-ticket case blocks, in order. -/
def concatBlocks : List RHit → String
  | [] => ""
  | t :: rest => caseBlock t ++ concatBlocks rest

/-- The prompt loop is the concatenation of one case block per ticket
appended to the accumulator. -/
lemma foldl_caseBlocks (ts : List RHit) (a : String) :
    ts.foldl (fun acc t => acc ++ caseBlock t) a = a ++ concatBlocks ts := by
  induction ts generalizing a with
  | nil => simp [concatBlocks]
  | cons t rest ih =>
    simp only [List.foldl_cons, concatBlocks]
    rw [ih, String.append_assoc]

/-- Taking at least `length` characters of a string returns it whole. -/
lemma string_take_of_length_le (s : String) (n : Nat) (h : s.length ≤ n) :
    s.take n = s := by
  apply String.ext
  rw [String.data_take]
  exact List.take_of_length_le h

set_option maxRecDepth 200000 in
/-- Claim C7: with no tickets the prompt is a fixed wrapper around the
literal query whose fixed parts never mention a "Relevant Support
Cases" section; with tickets, the prompt is the preamble, the question,
the section header and divider, one `Case:`/`Description:`/
`Resolution:`/`Relevance:` block per input ticket in input order, and
the response header; in each block the description is truncated to 200
characters and marked with an ellipsis exactly when the snippet exceeds
200 characters, and the relevance is the score formatted as a
percentage with one decimal (`fmtPercent`). -/
theorem build_rag_prompt_structure :
    (∀ q : String, build_rag_prompt q [] = noCasePre ++ q ++ noCasePost) ∧
    containsSub "Relevant Support Cases" noCasePre = false ∧
    containsSub "Relevant Support Cases" noCasePost = false ∧
    (∀ (q : String) (ts : List RHit), ts ≠ [] →
      build_rag_prompt q ts =
        ragPreamble ++ "## User Question:\n" ++ q ++ "\n\n" ++
        "## Relevant Support Cases:\n" ++ String.mk (List.replicate 50 '=') ++
        "\n" ++ concatBlocks ts ++ "\n## Your Response:\n") ∧
    (∀ t : RHit,
      (t.snippet.length ≤ 200 →
        caseBlock t =
          "Case: " ++ pyStr t.subject ++ "\n" ++ "Description: " ++
          t.snippet ++ "\n" ++ "Resolution: " ++ pyStr t.resolution ++
          "\n" ++ "Relevance: " ++ fmtPercent t.score ++ "\n" ++
          String.mk (List.replicate 30 '-') ++ "\n") ∧
      (t.snippet.length > 200 →
        caseBlock t =
          "Case: " ++ pyStr t.subject ++ "\n" ++ "Description: " ++
          t.snippet.take 200 ++ "..." ++ "\n" ++ "Resolution: " ++
          pyStr t.resolution ++ "\n" ++ "Relevance: " ++
          fmtPercent t.score ++ "\n" ++
          String.mk (List.replicate 30 '-') ++ "\n")) := by
  refine ⟨?_, by decide, by decide, ?_, ?_⟩
  · intro q
    rfl
  · intro q ts hne
    have hemp : ts.isEmpty = false := by simp [List.isEmpty_iff, hne]
    simp only [build_rag_prompt, hemp, Bool.false_eq_true, if_false]
    rw [foldl_caseBlocks]
  · intro t
    constructor
    · intro h
      have hnot : ¬ t.snippet.length > 200 := by omega
      simp only [caseBlock, if_neg hnot, String.append_empty,
        string_take_of_length_le t.snippet 200 h]
    · intro h
      simp only [caseBlock, if_pos h]

/-- Claim C7, witness: the with-context prompt over one hit is the
expected concatenation. -/
theorem build_rag_prompt_structure_witness :
    build_rag_prompt "q" [hitOne] =
      ragPreamble ++ "## User Question:\n" ++ "q" ++ "\n\n" ++
      "## Relevant Support Cases:\n" ++ String.mk (List.replicate 50 '=') ++
      "\n" ++ concatBlocks [hitOne] ++ "\n## Your Response:\n" :=
  build_rag_prompt_structure.2.2.2.1 "q" [hitOne] (by simp)
